import Mathlib

/-!
Shallow embedding of `mkpdf/core.py` (the `ImageToPDF` converter): page sizes,
image positions, metadata validation, the geometry helpers `_get_image_size`
and `_calculate_position`, and the two conversion entry points
`convert_single_image` and `convert_multiple_images`.

Python floats are modelled as `ℚ`; Python `int(x)` truncation is `pyInt`;
image decoding (PIL `Image.open` / `verify`) is an abstract environment
`FS.decode`; the reportlab canvas is modelled as a trace of `CanvasOp`
events.  A conversion call returns the final `Except` outcome together with
the list of canvas operations that were issued before it returned or raised,
mirroring the fact that in Python canvas calls already made persist when a
later step raises.
-/

/-- `PageSize` enum of `core.py`: each variant maps to a fixed
(width, height) pair in points (reportlab values: A4 = 210×297 mm at 72
points per inch, LETTER = 612×792, landscape swaps the two). -/
inductive PageSize where
  | A4
  | LETTER
  | A4_LANDSCAPE
  | LETTER_LANDSCAPE
deriving DecidableEq, Repr

/-- Page dimensions in points, as exact rationals (reportlab computes
`210 * 72 / 25.4` etc. as floats; the rational is the same quantity). -/
def PageSize.value : PageSize → ℚ × ℚ
  | .A4 => ((75600 : ℚ) / 127, (106920 : ℚ) / 127)
  | .LETTER => (612, 792)
  | .A4_LANDSCAPE => ((106920 : ℚ) / 127, (75600 : ℚ) / 127)
  | .LETTER_LANDSCAPE => (792, 612)

/-- `ImagePosition` enum of `core.py`. -/
inductive ImagePosition where
  | CENTER
  | TOP_LEFT
  | TOP_RIGHT
  | BOTTOM_LEFT
  | BOTTOM_RIGHT
deriving DecidableEq, Repr

/-- `PDFMetadata` dataclass fields (validation lives in `mkPDFMetadata`,
modelling `__post_init__`). -/
structure PDFMetadata where
  title : String
  author : String
  subject : String
  keywords : String
  creator : String
deriving DecidableEq, Repr

/-- The error kinds a call can surface: the three `mkpdf.exceptions`
classes, plus Python's built-in `TypeError` (raised e.g. when `None` is
compared with `<=`). -/
inductive PyErr where
  | validationError (msg : String)
  | imageError (msg : String)
  | pdfError (msg : String)
  | typeError (msg : String)
deriving DecidableEq, Repr

/-- `PDFMetadata.__post_init__`: empty (falsy) title, author or creator
raises `ValidationError`; otherwise the dataclass instance is built. -/
def mkPDFMetadata (title author subject keywords creator : String) :
    Except PyErr PDFMetadata :=
  if title = "" then .error (.validationError "title must not be empty")
  else if author = "" then .error (.validationError "author must not be empty")
  else if creator = "" then .error (.validationError "creator must not be empty")
  else .ok ⟨title, author, subject, keywords, creator⟩

/-- The mutable per-instance state of an `ImageToPDF` object:
`self._quality` and `self._metadata`. -/
structure Converter where
  quality : ℤ
  metadata : PDFMetadata
deriving DecidableEq, Repr

/-- `ImageToPDF.__init__`: quality 95 and the default metadata record. -/
def initConverter : Converter :=
  { quality := 95
    metadata :=
      { title := "Untitled Document"
        author := "MKPDF"
        subject := "Image to PDF Conversion"
        keywords := "PDF, Image, Conversion"
        creator := "MKPDF" } }

/-- The `quality` property setter: values outside [0, 100] raise
`ValidationError`, otherwise `self._quality` is updated. -/
def setQuality (conv : Converter) (q : ℤ) : Except PyErr Converter :=
  if 0 ≤ q ∧ q ≤ 100 then .ok { conv with quality := q }
  else .error (.validationError ("invalid quality value: " ++ toString q))

/-- Python `int(x)` applied to a float/rational: truncation toward zero. -/
def pyInt (q : ℚ) : ℤ := if 0 ≤ q then ⌊q⌋ else ⌈q⌉

/-- A PIL image value, abstracted to its provenance: a decoded file, a
`rotate(angle, expand=True)` of another image, or a `resize((w, h))` of
another image.  Dimensions are integers as in PIL. -/
inductive PILImage where
  | decoded (path : String) (w h : ℤ)
  | rotated (base : PILImage) (angle : ℤ)
  | resized (base : PILImage) (w h : ℤ)
deriving DecidableEq, Repr

/-- `image.size`.  For `rotate(angle, expand=True)` at the right angles the
converter validates (0/90/180/270), PIL swaps width and height at 90 and
270 and keeps them at 180. -/
def PILImage.size : PILImage → ℤ × ℤ
  | .decoded _ w h => (w, h)
  | .rotated base angle =>
      if angle = 90 ∨ angle = 270 then ((base.size).2, (base.size).1) else base.size
  | .resized _ w h => (w, h)

/-- The pixel source handed to `canvas.drawImage`: either a file path
(as in `convert_single_image`, line 218) or an in-memory PIL image via
`ImageReader` (as in `convert_multiple_images`, line 302). -/
inductive DrawSource where
  | fromPath (path : String)
  | fromImage (img : PILImage)
deriving DecidableEq, Repr

/-- One reportlab canvas operation issued by the converter. -/
inductive CanvasOp where
  | create (path : String) (pw ph : ℚ)
  | setTitle (s : String)
  | setAuthor (s : String)
  | setSubject (s : String)
  | setKeywords (s : String)
  | setCreator (s : String)
  | drawImage (src : DrawSource) (x y w h : ℚ)
  | showPage
  | save
deriving DecidableEq, Repr

/-- The image-decoding environment: `decode p = some (w, h)` when the file
at `p` exists and decodes to a `w × h` image, `none` when it is missing,
unreadable or corrupt (both `Image.open` failure and `img.verify()`
failure raise `ImageError` in `core.py`). -/
structure FS where
  decode : String → Option (ℤ × ℤ)

/-- The `page_size` argument: either an actual `PageSize` enum member or
some other Python value (whose repr we keep), which fails the
`isinstance` check. -/
inductive PageArg where
  | valid (ps : PageSize)
  | invalid (repr : String)
deriving DecidableEq, Repr

/-- The `position` argument, analogous to `PageArg`. -/
inductive PosArg where
  | valid (p : ImagePosition)
  | invalid (repr : String)
deriving DecidableEq, Repr

/-- `_get_image_size` (core.py lines 87-94): single scale factor
`min(max_width/width, max_height/height)`, both components multiplied by
it and truncated with `int`. -/
def get_image_size (size : ℤ × ℤ) (max_size : ℚ × ℚ) : ℤ × ℤ :=
  (pyInt ((size.1 : ℚ) * min (max_size.1 / (size.1 : ℚ)) (max_size.2 / (size.2 : ℚ))),
   pyInt ((size.2 : ℚ) * min (max_size.1 / (size.1 : ℚ)) (max_size.2 / (size.2 : ℚ))))

/-- `_calculate_position` (core.py lines 96-117).  The source's trailing
`else` (fall back to CENTER) is unreachable here because `ImagePosition`
is a closed enumeration. -/
def calculate_position (image_size page_size : ℚ × ℚ) (position : ImagePosition) :
    ℚ × ℚ :=
  match position with
  | .CENTER => ((page_size.1 - image_size.1) / 2, (page_size.2 - image_size.2) / 2)
  | .TOP_LEFT => (0, page_size.2 - image_size.2)
  | .TOP_RIGHT => (page_size.1 - image_size.1, page_size.2 - image_size.2)
  | .BOTTOM_LEFT => (0, 0)
  | .BOTTOM_RIGHT => (page_size.1 - image_size.1, 0)

/-- The inline placement chain of `convert_single_image`
(core.py lines 200-214); same five formulas, no `else` branch. -/
def single_position (image_size page_size : ℚ × ℚ) (position : ImagePosition) :
    ℚ × ℚ :=
  match position with
  | .CENTER => ((page_size.1 - image_size.1) / 2, (page_size.2 - image_size.2) / 2)
  | .TOP_LEFT => (0, page_size.2 - image_size.2)
  | .TOP_RIGHT => (page_size.1 - image_size.1, page_size.2 - image_size.2)
  | .BOTTOM_LEFT => (0, 0)
  | .BOTTOM_RIGHT => (page_size.1 - image_size.1, 0)

/-- The rotation step of `convert_single_image` (lines 166-167):
`if rotate != 0: img = img.rotate(rotate, expand=True)`. -/
def rotate_stage (img : PILImage) (rot : ℤ) : PILImage :=
  if rot ≠ 0 then .rotated img rot else img

/-- The rotation step of `convert_multiple_images` (lines 284-285):
`if rotate in [90, 180, 270]: image = image.rotate(rotate, expand=True)`. -/
def rotate_stage_multi (img : PILImage) (rot : ℤ) : PILImage :=
  if rot = 90 ∨ rot = 180 ∨ rot = 270 then .rotated img rot else img

/-- The inline resize of `convert_single_image` (lines 176-181):
`scale = min(page_width/img_width, page_height/img_height)` and
`img.resize((int(img_width*scale), int(img_height*scale)))`. -/
def single_resize (img : PILImage) (pw ph : ℚ) : PILImage :=
  .resized img
    (pyInt (((img.size).1 : ℚ) * min (pw / ((img.size).1 : ℚ)) (ph / ((img.size).2 : ℚ))))
    (pyInt (((img.size).2 : ℚ) * min (pw / ((img.size).1 : ℚ)) (ph / ((img.size).2 : ℚ))))

/-- The image-transformation pipeline of `convert_single_image`
(lines 159-181): decode, rotate when requested, then resize when enabled. -/
def single_transform (path : String) (w h rot : ℤ) (rz : Bool) (pw ph : ℚ) :
    PILImage :=
  if rz then single_resize (rotate_stage (.decoded path w h) rot) pw ph
  else rotate_stage (.decoded path w h) rot

/-- The drawn width/height in `convert_multiple_images` (lines 288-291):
`_get_image_size` of the (post-rotation) image when resizing, the image's
own size otherwise.  The image itself is never resampled in the batch
path; reportlab scales it at draw time. -/
def multi_draw_size (img : PILImage) (rz : Bool) (page : ℚ × ℚ) : ℤ × ℤ :=
  if rz then get_image_size img.size page else img.size

/-- The body of `convert_single_image` after parameter validation
(lines 150-226): decode (failure raises `ImageError`), transform, compute
the placement inline, then issue the canvas operations.  Note that the
draw call (line 218) passes `image_path`, not the transformed image, while
its width/height come from the transformed image.  The converter instance
is returned unchanged: the method never assigns `self._quality` or
`self._metadata`. -/
def convert_single_body (conv : Converter) (fs : FS)
    (image_path output_path : String) (ps : PageSize) (rot : ℤ) (rz : Bool)
    (pos : ImagePosition) : Except PyErr Converter × List CanvasOp :=
  match fs.decode image_path with
  | none => (.error (.imageError ("failed to load image: " ++ image_path)), [])
  | some (w, h) =>
    let page := ps.value
    let img := single_transform image_path w h rot rz page.1 page.2
    let xy := single_position (((img.size).1 : ℚ), ((img.size).2 : ℚ)) page pos
    (.ok conv,
      [CanvasOp.create output_path page.1 page.2,
       .setTitle conv.metadata.title,
       .setAuthor conv.metadata.author,
       .setSubject conv.metadata.subject,
       .setKeywords conv.metadata.keywords]
      ++ (if conv.metadata.creator ≠ "" then [CanvasOp.setCreator conv.metadata.creator] else [])
      ++ [CanvasOp.drawImage (.fromPath image_path) xy.1 xy.2
            (((img.size).1 : ℚ)) (((img.size).2 : ℚ)),
          CanvasOp.save])

/-- `convert_single_image` (core.py lines 119-231): validates page size,
rotation, position and (when not `None`) quality, in that order, before
any file access, then runs the body. -/
def convert_single_image (conv : Converter) (fs : FS)
    (image_path output_path : String) (page_size : PageArg) (rot : ℤ)
    (rz : Bool) (position : PosArg) (quality : Option ℤ) :
    Except PyErr Converter × List CanvasOp :=
  match page_size with
  | .invalid s => (.error (.validationError ("invalid page size: " ++ s)), [])
  | .valid ps =>
    if rot ∈ ([0, 90, 180, 270] : List ℤ) then
      match position with
      | .invalid s => (.error (.validationError ("invalid position: " ++ s)), [])
      | .valid pos =>
        match quality with
        | some q =>
          if 0 ≤ q ∧ q ≤ 100 then
            convert_single_body conv fs image_path output_path ps rot rz pos
          else (.error (.validationError ("invalid quality value: " ++ toString q)), [])
        | none => convert_single_body conv fs image_path output_path ps rot rz pos
    else (.error (.validationError ("invalid rotation angle: " ++ toString rot)), [])

/-- The per-image loop of `convert_multiple_images` (lines 277-309):
validate/decode, rotate, compute the drawn size and position, update
`self.quality` when a quality was given, draw and emit the page.  On a
decode failure the `ImageError` propagates immediately; operations from
earlier iterations persist (they were already issued to the canvas). -/
def multiLoop (fs : FS) (rot : ℤ) (rz : Bool) (page : ℚ × ℚ)
    (pos : ImagePosition) (quality : Option ℤ) :
    Converter → List String → Except PyErr Converter × List CanvasOp
  | conv, [] => (.ok conv, [])
  | conv, p :: rest =>
    match fs.decode p with
    | none => (.error (.imageError ("invalid image file: " ++ p)), [])
    | some (w, h) =>
      let img := rotate_stage_multi (.decoded p w h) rot
      let s := multi_draw_size img rz page
      let xy := calculate_position (((s.1 : ℚ)), ((s.2 : ℚ))) page pos
      match quality with
      | some q =>
        match setQuality conv q with
        | .error e => (.error e, [])
        | .ok conv2 =>
          let r := multiLoop fs rot rz page pos quality conv2 rest
          (r.1, CanvasOp.drawImage (.fromImage img) xy.1 xy.2 ((s.1 : ℚ)) ((s.2 : ℚ))
                  :: CanvasOp.showPage :: r.2)
      | none =>
        let r := multiLoop fs rot rz page pos quality conv rest
        (r.1, CanvasOp.drawImage (.fromImage img) xy.1 xy.2 ((s.1 : ℚ)) ((s.2 : ℚ))
                :: CanvasOp.showPage :: r.2)

/-- The five unconditional metadata setters of `convert_multiple_images`
(lines 271-275). -/
def metadataOps (m : PDFMetadata) : List CanvasOp :=
  [.setTitle m.title, .setAuthor m.author, .setSubject m.subject,
   .setKeywords m.keywords, .setCreator m.creator]

/-- Finishing step: `c.save()` runs only when the loop completed. -/
def finishBatch (pre : List CanvasOp)
    (r : Except PyErr Converter × List CanvasOp) :
    Except PyErr Converter × List CanvasOp :=
  match r.1 with
  | .error e => (.error e, pre ++ r.2)
  | .ok conv2 => (.ok conv2, pre ++ r.2 ++ [CanvasOp.save])

/-- `convert_multiple_images` (core.py lines 233-311).  Validation order:
page size, rotation, position, quality — but the quality check is the bare
`not 0 <= quality <= 100`, which on the default `quality=None` raises a
`TypeError` (comparing `int` with `NoneType`) instead of accepting the
omitted value. -/
def convert_multiple_images (conv : Converter) (fs : FS)
    (image_paths : List String) (output_path : String) (page_size : PageArg)
    (rot : ℤ) (rz : Bool) (position : PosArg) (quality : Option ℤ) :
    Except PyErr Converter × List CanvasOp :=
  match page_size with
  | .invalid s => (.error (.validationError ("invalid page size: " ++ s)), [])
  | .valid ps =>
    if rot ∈ ([0, 90, 180, 270] : List ℤ) then
      match position with
      | .invalid s => (.error (.validationError ("invalid position: " ++ s)), [])
      | .valid pos =>
        match quality with
        | none =>
          (.error (.typeError "unsupported comparison of int and NoneType"), [])
        | some q =>
          if 0 ≤ q ∧ q ≤ 100 then
            finishBatch
              (CanvasOp.create output_path (ps.value).1 (ps.value).2
                :: metadataOps conv.metadata)
              (multiLoop fs rot rz ps.value pos (some q) conv image_paths)
          else (.error (.validationError ("invalid quality value: " ++ toString q)), [])
    else (.error (.validationError ("invalid rotation angle: " ++ toString rot)), [])

/-- A small concrete decoding environment used by the concrete evaluations:
`"a"` is a 100×100 image, `"img"` a 200×100 image, everything else is
missing or corrupt. -/
def fs0 : FS :=
  ⟨fun p => if p = "a" then some (100, 100) else if p = "img" then some (200, 100) else none⟩

/-- Concatenation of per-path canvas-operation blocks, used to state the
shape of the batch trace. -/
def flatTrace (f : String → List CanvasOp) : List String → List CanvasOp
  | [] => []
  | p :: rest => f p ++ flatTrace f rest

/-- The canvas operations one decodable image contributes in the batch
loop: one `drawImage` of the (rotated) in-memory image at the computed
anchor and drawn size, then one `showPage`.  An undecodable path
contributes nothing (the loop raises before drawing). -/
def pageBlock (fs : FS) (rot : ℤ) (rz : Bool) (page : ℚ × ℚ) (pos : ImagePosition)
    (p : String) : List CanvasOp :=
  match fs.decode p with
  | none => []
  | some (w, h) =>
    let img := rotate_stage_multi (.decoded p w h) rot
    let s := multi_draw_size img rz page
    let xy := calculate_position (((s.1 : ℚ)), ((s.2 : ℚ))) page pos
    [CanvasOp.drawImage (.fromImage img) xy.1 xy.2 ((s.1 : ℚ)) ((s.2 : ℚ)),
     CanvasOp.showPage]

/-- The full canvas trace of a successful batch conversion: one `create`,
the five metadata setters once, the per-image blocks in input order, and
one final `save`. -/
def batchTrace (conv : Converter) (fs : FS) (paths : List String) (out : String)
    (ps : PageSize) (rot : ℤ) (rz : Bool) (pos : ImagePosition) : List CanvasOp :=
  (CanvasOp.create out (ps.value).1 (ps.value).2 :: metadataOps conv.metadata)
    ++ flatTrace (pageBlock fs rot rz ps.value pos) paths ++ [CanvasOp.save]

/-- Number of operations in a trace satisfying a predicate. -/
def countOp (f : CanvasOp → Bool) (ops : List CanvasOp) : ℕ := (ops.filter f).length

/-- Predicate for page-emission operations. -/
def isShowPage : CanvasOp → Bool
  | .showPage => true
  | _ => false

/-- Predicate for image-draw operations. -/
def isDraw : CanvasOp → Bool
  | .drawImage _ _ _ _ _ => true
  | _ => false

/-- Predicate for the document-save operation. -/
def isSave : CanvasOp → Bool
  | .save => true
  | _ => false

/-- On a successful outcome, the returned converter equals the given one
(vacuously true on an error outcome). -/
def convUnchanged (r : Except PyErr Converter) (conv : Converter) : Bool :=
  match r with
  | .ok c => decide (c = conv)
  | .error _ => true

/-- On a successful outcome, the returned converter has the given default
quality (vacuously true on an error outcome). -/
def qualityIs (r : Except PyErr Converter) (q : ℤ) : Bool :=
  match r with
  | .ok c => decide (c.quality = q)
  | .error _ => true

lemma pyInt_of_nonneg (q : ℚ) (hq : 0 ≤ q) : pyInt q = ⌊q⌋ := by
  unfold pyInt; exact if_pos hq

lemma countOp_append (f : CanvasOp → Bool) (a b : List CanvasOp) :
    countOp f (a ++ b) = countOp f a + countOp f b := by
  simp [countOp, List.filter_append]

lemma multiLoop_ok_of_decodable (fs : FS) (rot : ℤ) (rz : Bool) (page : ℚ × ℚ)
    (pos : ImagePosition) (q : ℤ) (conv : Converter) (paths : List String)
    (hq : 0 ≤ q ∧ q ≤ 100)
    (hdec : ∀ p ∈ paths, (fs.decode p).isSome = true) :
    multiLoop fs rot rz page pos (some q) conv paths
      = (.ok (if paths.isEmpty then conv else { conv with quality := q }),
         flatTrace (pageBlock fs rot rz page pos) paths) := by
  induction paths generalizing conv with
  | nil => simp [multiLoop, flatTrace]
  | cons p rest ih =>
    have hp : (fs.decode p).isSome = true := hdec p (List.mem_cons_self p rest)
    rcases Option.isSome_iff_exists.mp hp with ⟨⟨w, h⟩, hwh⟩
    have hrest : ∀ p ∈ rest, (fs.decode p).isSome = true := fun p hp =>
      hdec p (List.mem_cons_of_mem _ hp)
    have hsq : setQuality conv q = .ok { conv with quality := q } := by
      simp [setQuality, hq]
    have hconv : (if rest.isEmpty then { conv with quality := q }
        else { { conv with quality := q } with quality := q }) = { conv with quality := q } := by
      cases rest <;> simp
    rw [multiLoop, hwh]
    simp only [hsq, ih { conv with quality := q } hrest, hconv, pageBlock, hwh, flatTrace]
    simp

lemma flat_count_show (fs : FS) (rot : ℤ) (rz : Bool) (page : ℚ × ℚ)
    (pos : ImagePosition) (paths : List String)
    (hdec : ∀ p ∈ paths, (fs.decode p).isSome = true) :
    countOp isShowPage (flatTrace (pageBlock fs rot rz page pos) paths) = paths.length := by
  induction paths with
  | nil => simp [flatTrace, countOp]
  | cons p rest ih =>
    rcases Option.isSome_iff_exists.mp (hdec p (List.mem_cons_self p rest)) with ⟨⟨w, h⟩, hwh⟩
    rw [flatTrace, countOp_append, ih (fun p hp => hdec p (List.mem_cons_of_mem _ hp))]
    simp [pageBlock, hwh, countOp, isShowPage, isDraw]
    omega

lemma flat_count_draw (fs : FS) (rot : ℤ) (rz : Bool) (page : ℚ × ℚ)
    (pos : ImagePosition) (paths : List String)
    (hdec : ∀ p ∈ paths, (fs.decode p).isSome = true) :
    countOp isDraw (flatTrace (pageBlock fs rot rz page pos) paths) = paths.length := by
  induction paths with
  | nil => simp [flatTrace, countOp]
  | cons p rest ih =>
    rcases Option.isSome_iff_exists.mp (hdec p (List.mem_cons_self p rest)) with ⟨⟨w, h⟩, hwh⟩
    rw [flatTrace, countOp_append, ih (fun p hp => hdec p (List.mem_cons_of_mem _ hp))]
    simp [pageBlock, hwh, countOp, isDraw]
    omega

lemma flat_count_save (fs : FS) (rot : ℤ) (rz : Bool) (page : ℚ × ℚ)
    (pos : ImagePosition) (paths : List String) :
    countOp isSave (flatTrace (pageBlock fs rot rz page pos) paths) = 0 := by
  induction paths with
  | nil => simp [flatTrace, countOp]
  | cons p rest ih =>
    rw [flatTrace, countOp_append, ih]
    rcases hwh : fs.decode p with _ | ⟨w, h⟩ <;>
      simp [pageBlock, hwh, countOp, isSave]

lemma multiLoop_error (fs : FS) (rot : ℤ) (rz : Bool) (page : ℚ × ℚ)
    (pos : ImagePosition) (q : ℤ) (conv : Converter) (good : List String)
    (bad : String) (rest : List String)
    (hq : 0 ≤ q ∧ q ≤ 100)
    (hgood : ∀ p ∈ good, (fs.decode p).isSome = true)
    (hbad : fs.decode bad = none) :
    multiLoop fs rot rz page pos (some q) conv (good ++ bad :: rest)
      = (.error (.imageError ("invalid image file: " ++ bad)),
         flatTrace (pageBlock fs rot rz page pos) good) := by
  induction good generalizing conv with
  | nil =>
    rw [List.nil_append, multiLoop, hbad]
    simp [flatTrace]
  | cons p g ih =>
    rcases Option.isSome_iff_exists.mp (hgood p (List.mem_cons_self p g)) with ⟨⟨w, h⟩, hwh⟩
    have hsq : setQuality conv q = .ok { conv with quality := q } := by
      simp [setQuality, hq]
    rw [List.cons_append, multiLoop, hwh]
    simp only [hsq, ih { conv with quality := q } (fun p hp => hgood p (List.mem_cons_of_mem _ hp)),
      pageBlock, hwh, flatTrace]
    simp

lemma multiLoop_quality (fs : FS) (rot : ℤ) (rz : Bool) (page : ℚ × ℚ)
    (pos : ImagePosition) (q : ℤ) (paths : List String) (hq : 0 ≤ q ∧ q ≤ 100) :
    ∀ (conv conv2 : Converter) (ops : List CanvasOp),
      multiLoop fs rot rz page pos (some q) conv paths = (.ok conv2, ops) →
      paths ≠ [] → conv2.quality = q := by
  induction paths with
  | nil => intro conv conv2 ops _ hne; exact absurd rfl hne
  | cons p rest ih =>
    intro conv conv2 ops hml _
    rw [multiLoop] at hml
    rcases hwh : fs.decode p with _ | ⟨w, h⟩
    · rw [hwh] at hml; simp at hml
    · rw [hwh] at hml
      have hsq : setQuality conv q = .ok { conv with quality := q } := by
        simp [setQuality, hq]
      simp only [hsq] at hml
      rcases hr : multiLoop fs rot rz page pos (some q) { conv with quality := q } rest
        with ⟨res, ops2⟩
      simp only [hr] at hml
      have hres : res = .ok conv2 := congrArg Prod.fst hml
      cases rest with
      | nil =>
        rw [multiLoop] at hr
        have : Except.ok (ε := PyErr) { conv with quality := q } = res := congrArg Prod.fst hr
        rw [← this] at hres
        cases hres
        rfl
      | cons r rs =>
        refine ih { conv with quality := q } conv2 ops2 ?_ (by simp)
        rw [hr, hres]

/-- Claim C1 (code bug): in `convert_single_image` the pixel source handed
to `drawImage` is the original `image_path`, not the transformed image.
Concretely, for a 200×100 image with `rotate=90`, `resize=False`, the
emitted draw operation uses `DrawSource.fromPath "img"` with the rotated
dimensions 100×200, and that source differs from the transformed image
the claim says is drawn. -/
theorem convert_single_draws_original_file :
    convert_single_image initConverter fs0 "img" "out.pdf" (.valid .LETTER) 90 false
        (.valid .CENTER) none
      = (.ok initConverter,
         [CanvasOp.create "out.pdf" 612 792,
          .setTitle "Untitled Document",
          .setAuthor "MKPDF",
          .setSubject "Image to PDF Conversion",
          .setKeywords "PDF, Image, Conversion",
          .setCreator "MKPDF",
          .drawImage (.fromPath "img") 256 296 100 200,
          .save])
    ∧ DrawSource.fromPath "img"
        ≠ DrawSource.fromImage (single_transform "img" 200 100 90 false 612 792) := by
  have h1 : fs0.decode "img" = some (200, 100) := rfl
  constructor
  · simp [convert_single_image, convert_single_body, h1, initConverter,
      single_transform, single_position, rotate_stage, PILImage.size, PageSize.value]
    norm_num
  · simp [single_transform, rotate_stage]

/-- Claim C2: for strictly positive image and page dimensions,
`_get_image_size` returns the integer truncations of both components
multiplied by the single factor `min(max_w/w, max_h/h)`; the results are
bounded by `max_w` and `max_h`; the pre-truncation values preserve the
aspect ratio exactly, and each returned component is within 1 (the
integer-rounding tolerance) of its exactly proportional value. -/
theorem get_image_size_spec (w h : ℤ) (mw mh : ℚ) (hw : 0 < w) (hh : 0 < h)
    (hmw : 0 < mw) (hmh : 0 < mh) :
    (get_image_size (w, h) (mw, mh)).1 = ⌊(w : ℚ) * min (mw / (w : ℚ)) (mh / (h : ℚ))⌋
    ∧ (get_image_size (w, h) (mw, mh)).2 = ⌊(h : ℚ) * min (mw / (w : ℚ)) (mh / (h : ℚ))⌋
    ∧ ((get_image_size (w, h) (mw, mh)).1 : ℚ) ≤ mw
    ∧ ((get_image_size (w, h) (mw, mh)).2 : ℚ) ≤ mh
    ∧ ((w : ℚ) * min (mw / (w : ℚ)) (mh / (h : ℚ))) * (h : ℚ)
        = ((h : ℚ) * min (mw / (w : ℚ)) (mh / (h : ℚ))) * (w : ℚ)
    ∧ (w : ℚ) * min (mw / (w : ℚ)) (mh / (h : ℚ)) - 1 < ((get_image_size (w, h) (mw, mh)).1 : ℚ)
    ∧ (h : ℚ) * min (mw / (w : ℚ)) (mh / (h : ℚ)) - 1 < ((get_image_size (w, h) (mw, mh)).2 : ℚ) := by
  have hwq : (0 : ℚ) < (w : ℚ) := by exact_mod_cast hw
  have hhq : (0 : ℚ) < (h : ℚ) := by exact_mod_cast hh
  have hr0 : 0 ≤ min (mw / (w : ℚ)) (mh / (h : ℚ)) :=
    le_min (div_pos hmw hwq).le (div_pos hmh hhq).le
  have hwr : 0 ≤ (w : ℚ) * min (mw / (w : ℚ)) (mh / (h : ℚ)) := mul_nonneg hwq.le hr0
  have hhr : 0 ≤ (h : ℚ) * min (mw / (w : ℚ)) (mh / (h : ℚ)) := mul_nonneg hhq.le hr0
  have e1 : (get_image_size (w, h) (mw, mh)).1 = ⌊(w : ℚ) * min (mw / (w : ℚ)) (mh / (h : ℚ))⌋ := by
    simp only [get_image_size]
    exact pyInt_of_nonneg _ hwr
  have e2 : (get_image_size (w, h) (mw, mh)).2 = ⌊(h : ℚ) * min (mw / (w : ℚ)) (mh / (h : ℚ))⌋ := by
    simp only [get_image_size]
    exact pyInt_of_nonneg _ hhr
  have hb1 : (w : ℚ) * min (mw / (w : ℚ)) (mh / (h : ℚ)) ≤ mw := by
    calc (w : ℚ) * min (mw / (w : ℚ)) (mh / (h : ℚ))
        ≤ (w : ℚ) * (mw / (w : ℚ)) :=
          mul_le_mul_of_nonneg_left (min_le_left _ _) hwq.le
      _ = mw := by field_simp
  have hb2 : (h : ℚ) * min (mw / (w : ℚ)) (mh / (h : ℚ)) ≤ mh := by
    calc (h : ℚ) * min (mw / (w : ℚ)) (mh / (h : ℚ))
        ≤ (h : ℚ) * (mh / (h : ℚ)) :=
          mul_le_mul_of_nonneg_left (min_le_right _ _) hhq.le
      _ = mh := by field_simp
  refine ⟨e1, e2, ?_, ?_, by ring, ?_, ?_⟩
  · rw [e1]; exact le_trans (Int.floor_le _) hb1
  · rw [e2]; exact le_trans (Int.floor_le _) hb2
  · rw [e1]; exact Int.sub_one_lt_floor _
  · rw [e2]; exact Int.sub_one_lt_floor _

theorem get_image_size_spec_witness :
    ((get_image_size (100, 50) (595, 842)).1 : ℚ) ≤ 595
    ∧ ((get_image_size (100, 50) (595, 842)).2 : ℚ) ≤ 842 :=
  ⟨(get_image_size_spec 100 50 595 842 (by norm_num) (by norm_num) (by norm_num)
      (by norm_num)).2.2.1,
   (get_image_size_spec 100 50 595 842 (by norm_num) (by norm_num) (by norm_num)
      (by norm_num)).2.2.2.1⟩

/-- Claim C3: for every image size, page size and each of the five position
policies, `_calculate_position` returns exactly the spec's per-position
anchor formulas (CENTER: ((page_w-img_w)/2, (page_h-img_h)/2); TOP_LEFT:
(0, page_h-img_h); TOP_RIGHT: (page_w-img_w, page_h-img_h); BOTTOM_LEFT:
(0,0); BOTTOM_RIGHT: (page_w-img_w, 0)), with no bounds clamping, so an
image larger than the page yields negative coordinates (here a 700×900
image on a 612×792 page at TOP_RIGHT). -/
theorem calculate_position_spec (iw ih pw ph : ℚ) :
    calculate_position (iw, ih) (pw, ph) ImagePosition.CENTER = ((pw - iw) / 2, (ph - ih) / 2)
    ∧ calculate_position (iw, ih) (pw, ph) ImagePosition.TOP_LEFT = (0, ph - ih)
    ∧ calculate_position (iw, ih) (pw, ph) ImagePosition.TOP_RIGHT = (pw - iw, ph - ih)
    ∧ calculate_position (iw, ih) (pw, ph) ImagePosition.BOTTOM_LEFT = (0, 0)
    ∧ calculate_position (iw, ih) (pw, ph) ImagePosition.BOTTOM_RIGHT = (pw - iw, 0)
    ∧ (calculate_position (700, 900) (612, 792) ImagePosition.TOP_RIGHT).1 < 0
    ∧ (calculate_position (700, 900) (612, 792) ImagePosition.TOP_RIGHT).2 < 0 := by
  refine ⟨rfl, rfl, rfl, rfl, rfl, ?_, ?_⟩ <;> norm_num [calculate_position]

/-- Claim C4 (code bug): `convert_multiple_images` checks
`not 0 <= quality <= 100` without a `None` guard, so a call that omits
quality crashes with a `TypeError` during validation instead of passing;
by contrast `convert_single_image` accepts an omitted quality, rejects an
out-of-range quality with `ValidationError` before any file access (empty
trace), and rejects an invalid page size the same way. -/
theorem convert_multiple_none_quality_crashes :
    convert_multiple_images initConverter fs0 ["a"] "out.pdf" (.valid .A4) 0 true
        (.valid .CENTER) none
      = (.error (.typeError "unsupported comparison of int and NoneType"), [])
    ∧ (convert_single_image initConverter fs0 "a" "out.pdf" (.valid .A4) 0 true
        (.valid .CENTER) none).1.isOk = true
    ∧ convert_single_image initConverter fs0 "a" "out.pdf" (.valid .A4) 0 true
        (.valid .CENTER) (some 150)
      = (.error (.validationError ("invalid quality value: " ++ toString (150 : ℤ))), [])
    ∧ convert_single_image initConverter fs0 "a" "out.pdf" (.invalid "INVALID") 45 true
        (.invalid "raw") (some 150)
      = (.error (.validationError "invalid page size: INVALID"), []) := by
  have h1 : fs0.decode "a" = some (100, 100) := rfl
  refine ⟨?_, ?_, ?_, ?_⟩
  · simp [convert_multiple_images]
  · simp [convert_single_image, convert_single_body, h1, Except.isOk, Except.toBool]
  · simp [convert_single_image]
  · simp [convert_single_image]

/-- Claim C5: given valid parameters and a decodable batch, 
`convert_multiple_images` succeeds and its canvas trace is exactly one
`create`, the five metadata setters once (before any drawing), one
draw + page-emission block per input image in input order, and one final
`save`: n input images yield exactly n pages. -/
theorem convert_multiple_trace (conv : Converter) (fs : FS) (paths : List String)
    (out : String) (ps : PageSize) (rot : ℤ) (rz : Bool) (pos : ImagePosition) (q : ℤ)
    (hrot : rot ∈ ([0, 90, 180, 270] : List ℤ)) (hq : 0 ≤ q ∧ q ≤ 100)
    (hdec : ∀ p ∈ paths, (fs.decode p).isSome = true) :
    convert_multiple_images conv fs paths out (.valid ps) rot rz (.valid pos) (some q)
      = (.ok (if paths.isEmpty then conv else { conv with quality := q }),
         batchTrace conv fs paths out ps rot rz pos)
    ∧ countOp isShowPage (batchTrace conv fs paths out ps rot rz pos) = paths.length
    ∧ countOp isDraw (batchTrace conv fs paths out ps rot rz pos) = paths.length
    ∧ countOp isSave (batchTrace conv fs paths out ps rot rz pos) = 1 := by
  refine ⟨?_, ?_, ?_, ?_⟩
  · simp [convert_multiple_images, hrot, hq,
      multiLoop_ok_of_decodable fs rot rz ps.value pos q conv paths hq hdec,
      finishBatch, batchTrace]
  · rw [batchTrace, countOp_append, countOp_append,
      flat_count_show fs rot rz ps.value pos paths hdec]
    simp [countOp, metadataOps, isShowPage]
  · rw [batchTrace, countOp_append, countOp_append,
      flat_count_draw fs rot rz ps.value pos paths hdec]
    simp [countOp, metadataOps, isDraw]
  · rw [batchTrace, countOp_append, countOp_append,
      flat_count_save fs rot rz ps.value pos paths]
    simp [countOp, metadataOps, isSave]

theorem convert_multiple_trace_witness :
    convert_multiple_images initConverter fs0 ["a", "img"] "out.pdf" (.valid .LETTER) 0 true
        (.valid .CENTER) (some 80)
      = (.ok (if (["a", "img"] : List String).isEmpty then initConverter
              else { initConverter with quality := 80 }),
         batchTrace initConverter fs0 ["a", "img"] "out.pdf" .LETTER 0 true .CENTER)
    ∧ countOp isShowPage (batchTrace initConverter fs0 ["a", "img"] "out.pdf" .LETTER 0 true .CENTER)
        = (["a", "img"] : List String).length
    ∧ countOp isDraw (batchTrace initConverter fs0 ["a", "img"] "out.pdf" .LETTER 0 true .CENTER)
        = (["a", "img"] : List String).length
    ∧ countOp isSave (batchTrace initConverter fs0 ["a", "img"] "out.pdf" .LETTER 0 true .CENTER)
        = 1 :=
  convert_multiple_trace initConverter fs0 ["a", "img"] "out.pdf" .LETTER 0 true .CENTER 80
    (by decide) (by decide) (by decide)

/-- Claim C6: if an image in the batch fails to decode, the whole batch
fails with an `ImageError`; the trace contains draw operations only for
the images before the failing one (none for it or for any later image)
and no `save` operation. -/
theorem convert_multiple_aborts (conv : Converter) (fs : FS) (good : List String)
    (bad : String) (rest : List String) (out : String) (ps : PageSize) (rot : ℤ)
    (rz : Bool) (pos : ImagePosition) (q : ℤ)
    (hrot : rot ∈ ([0, 90, 180, 270] : List ℤ)) (hq : 0 ≤ q ∧ q ≤ 100)
    (hgood : ∀ p ∈ good, (fs.decode p).isSome = true)
    (hbad : fs.decode bad = none) :
    convert_multiple_images conv fs (good ++ bad :: rest) out (.valid ps) rot rz
        (.valid pos) (some q)
      = (.error (.imageError ("invalid image file: " ++ bad)),
         (CanvasOp.create out (ps.value).1 (ps.value).2 :: metadataOps conv.metadata)
           ++ flatTrace (pageBlock fs rot rz ps.value pos) good)
    ∧ countOp isSave
        ((CanvasOp.create out (ps.value).1 (ps.value).2 :: metadataOps conv.metadata)
          ++ flatTrace (pageBlock fs rot rz ps.value pos) good) = 0
    ∧ countOp isDraw
        ((CanvasOp.create out (ps.value).1 (ps.value).2 :: metadataOps conv.metadata)
          ++ flatTrace (pageBlock fs rot rz ps.value pos) good) = good.length := by
  refine ⟨?_, ?_, ?_⟩
  · simp [convert_multiple_images, hrot, hq,
      multiLoop_error fs rot rz ps.value pos q conv good bad rest hq hgood hbad,
      finishBatch]
  · rw [countOp_append, flat_count_save fs rot rz ps.value pos good]
    simp [countOp, metadataOps, isSave]
  · rw [countOp_append, flat_count_draw fs rot rz ps.value pos good hgood]
    simp [countOp, metadataOps, isDraw]

theorem convert_multiple_aborts_witness :
    convert_multiple_images initConverter fs0 (["a"] ++ "crash" :: ["img"]) "out.pdf"
        (.valid .LETTER) 0 true (.valid .CENTER) (some 80)
      = (.error (.imageError ("invalid image file: " ++ "crash")),
         (CanvasOp.create "out.pdf" (PageSize.LETTER.value).1 (PageSize.LETTER.value).2
            :: metadataOps initConverter.metadata)
           ++ flatTrace (pageBlock fs0 0 true PageSize.LETTER.value ImagePosition.CENTER) ["a"])
    ∧ countOp isSave
        ((CanvasOp.create "out.pdf" (PageSize.LETTER.value).1 (PageSize.LETTER.value).2
            :: metadataOps initConverter.metadata)
          ++ flatTrace (pageBlock fs0 0 true PageSize.LETTER.value ImagePosition.CENTER) ["a"]) = 0
    ∧ countOp isDraw
        ((CanvasOp.create "out.pdf" (PageSize.LETTER.value).1 (PageSize.LETTER.value).2
            :: metadataOps initConverter.metadata)
          ++ flatTrace (pageBlock fs0 0 true PageSize.LETTER.value ImagePosition.CENTER) ["a"])
        = (["a"] : List String).length :=
  convert_multiple_aborts initConverter fs0 ["a"] "crash" ["img"] "out.pdf" .LETTER 0 true
    .CENTER 80 (by decide) (by decide) (by decide) (by decide)

/-- Claim C7: constructing `PDFMetadata` with an empty title or an empty
author always fails validation, and construction with any non-empty
title, author and creator succeeds, returning exactly the given fields
regardless of their content. -/
theorem mkPDFMetadata_spec (t a s k c : String) :
    ((t = "" ∨ a = "") → (mkPDFMetadata t a s k c).isOk = false)
    ∧ (t ≠ "" → a ≠ "" → c ≠ "" → mkPDFMetadata t a s k c = .ok ⟨t, a, s, k, c⟩) := by
  constructor
  · rintro (rfl | rfl)
    · simp [mkPDFMetadata, Except.isOk, Except.toBool]
    · by_cases ht : t = "" <;> simp [mkPDFMetadata, ht, Except.isOk, Except.toBool]
  · intro ht ha hc
    simp [mkPDFMetadata, ht, ha, hc]

theorem mkPDFMetadata_spec_witness :
    (mkPDFMetadata "" "Author" "s" "k" "MKPDF").isOk = false
    ∧ mkPDFMetadata "タイトル" "著者" "subject" "keywords" "作成者"
        = .ok ⟨"タイトル", "著者", "subject", "keywords", "作成者"⟩ :=
  ⟨(mkPDFMetadata_spec "" "Author" "s" "k" "MKPDF").1 (Or.inl rfl),
   (mkPDFMetadata_spec "タイトル" "著者" "subject" "keywords" "作成者").2
     (by decide) (by decide) (by decide)⟩

/-- Claim C8: for a validated rotation angle, the batch rotation guard
(`rotate in [90,180,270]`) agrees with the single-image guard
(`rotate != 0`); rotation is applied exactly when the angle is nonzero;
the single-image pipeline resamples strictly after rotating; with
rotation 0 the dimensions entering the resize step equal the decoded
dimensions; and the batch drawn-size computation applies
`_get_image_size` to the post-rotation image. -/
theorem rotation_before_resize (img : PILImage) (path : String) (w h rot : ℤ)
    (rz : Bool) (pw ph : ℚ) (page : ℚ × ℚ)
    (hrot : rot ∈ ([0, 90, 180, 270] : List ℤ)) :
    rotate_stage_multi img rot = rotate_stage img rot
    ∧ (rot ≠ 0 → rotate_stage img rot = PILImage.rotated img rot)
    ∧ (rot = 0 → rotate_stage img rot = img)
    ∧ single_transform path w h rot rz pw ph
        = (if rz then single_resize (rotate_stage (.decoded path w h) rot) pw ph
           else rotate_stage (.decoded path w h) rot)
    ∧ (rot = 0 → (rotate_stage (PILImage.decoded path w h) rot).size = (w, h))
    ∧ multi_draw_size (rotate_stage_multi (PILImage.decoded path w h) rot) rz page
        = (if rz then get_image_size (rotate_stage_multi (PILImage.decoded path w h) rot).size page
           else (rotate_stage_multi (PILImage.decoded path w h) rot).size) := by
  refine ⟨?_, ?_, ?_, ?_, ?_, ?_⟩
  · simp only [List.mem_cons, List.not_mem_nil, or_false] at hrot
    rcases hrot with rfl | rfl | rfl | rfl <;> simp [rotate_stage, rotate_stage_multi]
  · intro h0; simp [rotate_stage, h0]
  · intro h0; simp [rotate_stage, h0]
  · cases rz <;> simp [single_transform]
  · intro h0; simp [rotate_stage, h0, PILImage.size]
  · cases rz <;> simp [multi_draw_size]

theorem rotation_before_resize_witness :
    rotate_stage_multi (PILImage.decoded "x" 3 4) 90 = rotate_stage (PILImage.decoded "x" 3 4) 90
    ∧ rotate_stage (PILImage.decoded "x" 3 4) 90 = PILImage.rotated (PILImage.decoded "x" 3 4) 90 :=
  ⟨(rotation_before_resize (PILImage.decoded "x" 3 4) "x" 3 4 90 true 10 10 (10, 10)
      (by decide)).1,
   (rotation_before_resize (PILImage.decoded "x" 3 4) "x" 3 4 90 true 10 10 (10, 10)
      (by decide)).2.1 (by decide)⟩

/-- Claim C9, counterexample to the original claim: a successful
`convert_single_image` call with quality 50 returns the converter still
holding its initial default quality 95 — the instance's default quality
is not updated. -/
theorem quality_not_updated_by_single :
    (convert_single_image initConverter fs0 "a" "out.pdf" (.valid .LETTER) 0 true
        (.valid .CENTER) (some 50)).1 = .ok initConverter
    ∧ initConverter.quality = 95 ∧ (95 : ℤ) ≠ 50 := by
  have h1 : fs0.decode "a" = some (100, 100) := rfl
  exact ⟨by simp [convert_single_image, convert_single_body, h1], rfl, by decide⟩

/-- Claim C9 (amended): a quality argument in [0,100] updates the
converter's default quality only in `convert_multiple_images` (on any
successful call with at least one image); `convert_single_image` merely
validates it and always returns the converter unchanged. -/
theorem quality_update_behavior (conv : Converter) (fs : FS) (path out : String)
    (paths : List String) (ps : PageSize) (rot : ℤ) (rz : Bool) (pos : ImagePosition)
    (q : ℤ) (hq : 0 ≤ q ∧ q ≤ 100) (hne : paths ≠ []) :
    convUnchanged
      (convert_single_image conv fs path out (.valid ps) rot rz (.valid pos) (some q)).1
      conv = true
    ∧ qualityIs
      (convert_multiple_images conv fs paths out (.valid ps) rot rz (.valid pos) (some q)).1
      q = true := by
  constructor
  · by_cases hrot : rot ∈ ([0, 90, 180, 270] : List ℤ)
    · simp only [convert_single_image, hrot, hq.1, hq.2, and_self, if_true]
      rcases hfd : fs.decode path with _ | ⟨w, h⟩ <;>
        simp [convert_single_body, hfd, convUnchanged]
    · simp [convert_single_image, hrot, convUnchanged]
  · by_cases hrot : rot ∈ ([0, 90, 180, 270] : List ℤ)
    · simp only [convert_multiple_images, hrot, hq.1, hq.2, and_self, if_true]
      rcases hml : multiLoop fs rot rz ps.value pos (some q) conv paths with ⟨res, ops⟩
      cases res with
      | error e => simp [finishBatch, hml, qualityIs]
      | ok conv2 =>
        have hcq := multiLoop_quality fs rot rz ps.value pos q paths hq conv conv2 ops hml hne
        simp [finishBatch, hml, qualityIs, hcq]
    · simp [convert_multiple_images, hrot, qualityIs]

theorem quality_update_behavior_witness :
    convUnchanged
      (convert_single_image initConverter fs0 "a" "out.pdf" (.valid .LETTER) 0 true
        (.valid .CENTER) (some 50)).1 initConverter = true
    ∧ qualityIs
      (convert_multiple_images initConverter fs0 ["a"] "out.pdf" (.valid .LETTER) 0 true
        (.valid .CENTER) (some 50)).1 50 = true :=
  quality_update_behavior initConverter fs0 "a" "out.pdf" ["a"] .LETTER 0 true .CENTER 50
    (by decide) (by decide)

/-- Claim C10: there are strictly positive inputs on which
`_get_image_size` returns a zero dimension: a 1×10000 image scaled
against the A4 page dimensions yields width 0 (integer truncation of
`width * ratio`), so strict positivity of the output fails. -/
theorem get_image_size_zero_width :
    (0 : ℤ) < 1 ∧ (0 : ℤ) < 10000
    ∧ 0 < (PageSize.A4.value).1 ∧ 0 < (PageSize.A4.value).2
    ∧ get_image_size (1, 10000) PageSize.A4.value = (0, 841) := by
  norm_num [get_image_size, pyInt, PageSize.value, min_def]
